import Mathlib

/-!
Verification of the WebOSC front-end (`app.py`): a shallow embedding of the
Flask routing layer of the Open Shop Channel web front-end.  The five route
handlers, the two framework error handlers and the module-level startup
sequence are embedded as pure Lean functions; the external registry client
(`osc.API`, not part of this repository) is modelled from the specification
as a list of packages with a lookup-by-internal-name operation.  Each
handler is instrumented: its result records the registry calls it performs,
the render calls it issues (template identifier plus named parameters) and
the HTTP status of the response.
-/

namespace WebOSC

/-- Modelled from the spec: a `Package` is an entry in the distribution
catalog, opaque to this layer beyond a display name and an internal/lookup
name (the string key used for `/app?package=` lookups).  The spec's example
is the package with name "Homebrew Browser" and internal name "hbb". -/
structure Package where
  name : String
  internal : String
deriving DecidableEq, Repr

/-- Modelled from the spec: the registry handle is the process-wide state of
the external registry client; this layer only observes its current package
list, plus whether the one-time load step has run. -/
structure RegistryState where
  loaded : Bool
  packages : List Package
deriving DecidableEq, Repr

/-- Modelled from the spec: `get_packages() -> sequence of Package` returns
the registry's current package list (a read method, side-effect-free). -/
def get_packages (reg : List Package) : List Package := reg

/-- Modelled from the spec: `package_by_name(name) -> Package or absent`
looks a package up by its internal/lookup name; a missing parameter (Python
`None`) or a non-matching name yields absent. -/
def package_by_name (reg : List Package) : Option String → Option Package
  | none => none
  | some n => reg.find? (fun p => p.internal == n)

/-- Python `str` rendering of an optional string, as performed by
`"...".format(request.args.get("package"))` in the handler for `/app`:
a present string renders as itself, Python `None` renders as "None". -/
def pyStr : Option String → String
  | none => "None"
  | some s => s

/-- A registry call performed by this layer: the one-time `load_packages`
at startup, and the two read methods used by the handlers. -/
inductive RegistryCall where
  | load_packages : RegistryCall
  | get_packages : RegistryCall
  | package_by_name (arg : Option String) : RegistryCall
deriving DecidableEq, Repr

/-- Whether a registry call is one of the read methods. -/
def RegistryCall.isRead : RegistryCall → Bool
  | .load_packages => false
  | .get_packages => true
  | .package_by_name _ => true

/-- Modelled from the spec: the effect of a registry call on the registry
state.  `load_packages` loads the externally supplied package list
(`loadResult`, outside this layer's control); the read methods are
side-effect-free. -/
def applyCall (loadResult : List Package) (st : RegistryState) :
    RegistryCall → RegistryState
  | .load_packages => { loaded := true, packages := loadResult }
  | .get_packages => st
  | .package_by_name _ => st

/-- A value passed to the template renderer as a named parameter. -/
inductive TValue where
  | str (s : String) : TValue
  | pkg (p : Package) : TValue
  | pkgList (l : List Package) : TValue
deriving DecidableEq, Repr

/-- One render call: a template identifier together with its named
parameters, in the order they are passed in the source. -/
structure Rendered where
  template : String
  params : List (String × TValue)
deriving DecidableEq, Repr

/-- The instrumented result of running one handler: the registry calls it
performed (in order), the render calls it issued, and the HTTP status of
the response. -/
structure HandlerResult where
  registryCalls : List RegistryCall
  renders : List Rendered
  status : Nat
deriving DecidableEq, Repr

/-- An inbound HTTP GET request: the URL path and the query arguments. -/
structure Request where
  path : String
  args : List (String × String)
deriving DecidableEq, Repr

/-- `request.args.get(key)`: the first value bound to `key` among the query
arguments, or `None` when the key is absent. -/
def argsGet (args : List (String × String)) (key : String) : Option String :=
  (args.find? (fun kv => kv.1 == key)).map (fun kv => kv.2)

/-- Handler for `GET /` (source `welcome`): no registry call, renders
`welcome.html` with no parameters. -/
def welcome : HandlerResult :=
  { registryCalls := []
    renders := [{ template := "welcome.html", params := [] }]
    status := 200 }

/-- Handler for `GET /home` (source `home`): fetches the full package list
and renders `home.html` with it bound to the parameter `packages`. -/
def home (reg : List Package) : HandlerResult :=
  { registryCalls := [RegistryCall.get_packages]
    renders := [{ template := "home.html"
                  params := [("packages", TValue.pkgList (get_packages reg))] }]
    status := 200 }

/-- Handler for `GET /apps` (source `apps`): fetches the full package list
and renders `list.html` with it bound to the parameter `packages`. -/
def apps (reg : List Package) : HandlerResult :=
  { registryCalls := [RegistryCall.get_packages]
    renders := [{ template := "list.html"
                  params := [("packages", TValue.pkgList (get_packages reg))] }]
    status := 200 }

/-- The fixed disclaimer text passed by the `/patches` handler (verbatim
from the source, including its spelling of "responsbile"). -/
def patchesDescription : String :=
  "Many patches could damage or brick your system. The Open Shop Channel is not responsbile for any damages to your Wii."

/-- Handler for `GET /patches` (source `patches`): no registry call, renders
`warning.html` with the fixed code `PATCH-WARN` and the fixed disclaimer. -/
def patches : HandlerResult :=
  { registryCalls := []
    renders := [{ template := "warning.html"
                  params := [("code", TValue.str "PATCH-WARN"),
                             ("description", TValue.str patchesDescription)] }]
    status := 200 }

/-- The not-found description built by the `/app` handler:
`"The app \"{}\" (Internal Name) could not be found.".format(arg)`. -/
def appNotFoundDescription (arg : Option String) : String :=
  "The app \"" ++ pyStr arg ++ "\" (Internal Name) could not be found."

/-- The render call issued by the `/app` handler when the lookup succeeds. -/
def appDetailRender (p : Package) : Rendered :=
  { template := "app.html", params := [("package", TValue.pkg p)] }

/-- The render call issued by the `/app` handler when the lookup fails. -/
def appNotFoundRender (arg : Option String) : Rendered :=
  { template := "error.html"
    params := [("code", TValue.str "APP-404"),
               ("description", TValue.str (appNotFoundDescription arg))] }

/-- Handler for `GET /app` (source `application`): looks the package up by
the `package` query argument; if found renders `app.html` with it, else
renders `error.html` with code `APP-404` and a description citing the
requested name. -/
def application (reg : List Package) (arg : Option String) : HandlerResult :=
  match package_by_name reg arg with
  | some package =>
      { registryCalls := [RegistryCall.package_by_name arg]
        renders := [appDetailRender package]
        status := 200 }
  | none =>
      { registryCalls := [RegistryCall.package_by_name arg]
        renders := [appNotFoundRender arg]
        status := 200 }

/-- Framework error handler registered for HTTP 404 (the first source
function named `page_not_found`): renders `error.html` with the fixed code
`HTTP-404` and fixed text; the triggering condition `e` is unused. -/
def page_not_found (e : Nat) : HandlerResult :=
  { registryCalls := []
    renders := [{ template := "error.html"
                  params := [("code", TValue.str "HTTP-404"),
                             ("description", TValue.str "Page could not be found. This is not where the shop is :(")] }]
    status := 404 }

/-- Framework error handler registered for HTTP 500 (the second source
function, which reuses the identifier `page_not_found`): renders
`error.html` with the fixed code `HTTP-500` and fixed text; the triggering
condition `e` is unused. -/
def page_not_found' (e : Nat) : HandlerResult :=
  { registryCalls := []
    renders := [{ template := "error.html"
                  params := [("code", TValue.str "HTTP-500"),
                             ("description", TValue.str "Something went wrong on the shop's server. Please report this event!")] }]
    status := 500 }

/-- The framework's error-handler registry, built at decoration time in
source order: each status code is bound to the function object defined
directly under its decorator, independently of the Python name that
function is later bound to. -/
def errorHandlers : List (Nat × (Nat → HandlerResult)) :=
  [(404, page_not_found), (500, page_not_found')]

/-- Framework dispatch of an HTTP error status to its registered handler. -/
def dispatchError (status : Nat) : Option HandlerResult :=
  (errorHandlers.find? (fun h => h.1 == status)).map (fun h => h.2 status)

/-- The module-level binding of the Python identifier `page_not_found`
after both definitions execute: the second definition shadows the first,
so the name ends up denoting the 500 handler.  The framework registry
`errorHandlers` is unaffected by this shadowing. -/
def moduleBinding_page_not_found : Nat → HandlerResult := page_not_found'

/-- Full request dispatch: the router selects the handler by path; an
unmatched path falls through to the framework 404 handler. -/
def handle (reg : List Package) (req : Request) : HandlerResult :=
  if req.path == "/" then welcome
  else if req.path == "/home" then home reg
  else if req.path == "/apps" then apps reg
  else if req.path == "/patches" then patches
  else if req.path == "/app" then application reg (argsGet req.args "package")
  else page_not_found 404

/-- A process-level event: construction of the registry client, its load
step, or the handling of one inbound request. -/
inductive Event where
  | construct : Event
  | load_packages : Event
  | handle (req : Request) : Event
deriving DecidableEq, Repr

/-- Whether an event is the registry load step. -/
def Event.isLoad : Event → Bool
  | .load_packages => true
  | _ => false

/-- Whether an event is the handling of a request. -/
def Event.isHandle : Event → Bool
  | .handle _ => true
  | _ => false

/-- The module-level startup sequence of `app.py`, in source order:
`OpenShopChannel = osc.API()` then `OpenShopChannel.load_packages()`,
both executed before the server accepts any request. -/
def startup : List Event := [Event.construct, Event.load_packages]

/-- The event trace of one process run: the startup sequence followed by
the handling of the inbound requests, in order. -/
def processTrace (reqs : List Request) : List Event :=
  startup ++ reqs.map Event.handle

/-- The package list bound to the parameter `packages` of a render call,
when present. -/
def renderedPackages (r : Rendered) : Option (List Package) :=
  match r.params.find? (fun kv => kv.1 == "packages") with
  | some (_, TValue.pkgList l) => some l
  | _ => none

/-- Folding a sequence of read-only registry calls over any registry state
leaves the state unchanged. -/
theorem foldl_reads_id (loadResult : List Package) (calls : List RegistryCall)
    (h : calls.all RegistryCall.isRead = true) (st : RegistryState) :
    calls.foldl (applyCall loadResult) st = st := by
  induction calls generalizing st with
  | nil => rfl
  | cons c cs ih =>
      simp only [List.all_cons, Bool.and_eq_true] at h
      cases c with
      | load_packages => simp [RegistryCall.isRead] at h
      | get_packages => exact ih h.2 st
      | package_by_name arg => exact ih h.2 st

/-- The spec's example package: name "Homebrew Browser", internal "hbb". -/
def hbbPackage : Package := { name := "Homebrew Browser", internal := "hbb" }

/-- C1: For every request `GET /app?package=<name>`: if the registry's
`package_by_name` lookup returns a package for the requested name, the
handler returns status 200 with the app detail page (`app.html`) rendered
for that package; if the lookup returns no package, the handler returns
status 200 with the error page rendered with code `APP-404`. -/
theorem application_found_or_app404 (reg : List Package)
    (args : List (String × String)) :
    (handle reg { path := "/app", args := args }).status = 200 ∧
    (∀ p, package_by_name reg (argsGet args "package") = some p →
      (handle reg { path := "/app", args := args }).renders = [appDetailRender p]) ∧
    (package_by_name reg (argsGet args "package") = none →
      (handle reg { path := "/app", args := args }).renders =
        [appNotFoundRender (argsGet args "package")]) := by
  have hh : handle reg { path := "/app", args := args } =
      application reg (argsGet args "package") := rfl
  rw [hh]
  unfold application
  cases hpb : package_by_name reg (argsGet args "package") <;> simp_all

/-- Witness for C1 at the spec's example registry: the lookup for "hbb"
succeeds and the handler renders the detail page for that package. -/
theorem application_found_or_app404_witness :
    package_by_name [hbbPackage] (argsGet [("package", "hbb")] "package") =
      some hbbPackage ∧
    (handle [hbbPackage] { path := "/app", args := [("package", "hbb")] }).renders =
      [appDetailRender hbbPackage] :=
  ⟨by decide,
   (application_found_or_app404 [hbbPackage] [("package", "hbb")]).2.1
     hbbPackage (by decide)⟩

/-- C2: For every query whose `package` value matches no internal name in
the registry — including the omitted parameter and the empty string — the
`/app` handler returns status 200 and renders the error page with code
`APP-404` and a description containing the literal requested name (Python
renders an omitted parameter as "None"); the handler is a total function,
so no exception escapes this fallback path. -/
theorem application_not_found_fallback (reg : List Package)
    (args : List (String × String))
    (hnot : ∀ p ∈ reg, some p.internal ≠ argsGet args "package") :
    (handle reg { path := "/app", args := args }).status = 200 ∧
    (handle reg { path := "/app", args := args }).renders =
      [appNotFoundRender (argsGet args "package")] ∧
    ∃ s1 s2, appNotFoundDescription (argsGet args "package") =
      s1 ++ pyStr (argsGet args "package") ++ s2 := by
  have hpb : package_by_name reg (argsGet args "package") = none := by
    cases harg : argsGet args "package" with
    | none => rfl
    | some n =>
        simp only [package_by_name]
        rw [List.find?_eq_none]
        intro p hp
        have hne := hnot p hp
        rw [harg] at hne
        simp only [beq_iff_eq]
        intro he
        exact hne (by rw [he])
  have hh : handle reg { path := "/app", args := args } =
      application reg (argsGet args "package") := rfl
  refine ⟨?_, ?_, ?_⟩
  · rw [hh]; unfold application; rw [hpb]
  · rw [hh]; unfold application; rw [hpb]
  · exact ⟨"The app \"", "\" (Internal Name) could not be found.", rfl⟩

/-- Witness for C2 with the `package` parameter omitted entirely: the
registry containing only the example package serves the APP-404 page. -/
theorem application_not_found_fallback_witness :
    (∀ p ∈ [hbbPackage],
      some p.internal ≠ argsGet ([] : List (String × String)) "package") ∧
    (handle [hbbPackage] { path := "/app", args := [] }).status = 200 ∧
    (handle [hbbPackage] { path := "/app", args := [] }).renders =
      [appNotFoundRender none] :=
  ⟨by decide,
   (application_not_found_fallback [hbbPackage] [] (by decide)).1,
   (application_not_found_fallback [hbbPackage] [] (by decide)).2.1⟩

/-- C3: Every request to `GET /patches`, whatever its query arguments,
returns status 200 and renders exactly the warning template with the fixed
code `PATCH-WARN` and its fixed disclaimer description. -/
theorem patches_fixed (reg : List Package) (args : List (String × String)) :
    handle reg { path := "/patches", args := args } = patches ∧
    patches.status = 200 ∧
    patches.renders =
      [{ template := "warning.html"
         params := [("code", TValue.str "PATCH-WARN"),
                    ("description", TValue.str patchesDescription)] }] :=
  ⟨rfl, rfl, rfl⟩

/-- C4: `GET /home` and `GET /apps` each fetch the full package list via
`get_packages` at request time, pass it unmodified to the renderer under
the `packages` parameter, return status 200, and the rendered package
count equals the registry's current package count. -/
theorem home_apps_package_count (reg : List Package)
    (args : List (String × String)) :
    handle reg { path := "/home", args := args } = home reg ∧
    handle reg { path := "/apps", args := args } = apps reg ∧
    (home reg).status = 200 ∧ (apps reg).status = 200 ∧
    (home reg).registryCalls = [RegistryCall.get_packages] ∧
    (apps reg).registryCalls = [RegistryCall.get_packages] ∧
    (home reg).renders.map renderedPackages = [some (get_packages reg)] ∧
    (apps reg).renders.map renderedPackages = [some (get_packages reg)] ∧
    get_packages reg = reg ∧
    (home reg).renders.map (fun r => (renderedPackages r).map List.length) =
      [some reg.length] ∧
    (apps reg).renders.map (fun r => (renderedPackages r).map List.length) =
      [some reg.length] :=
  ⟨rfl, rfl, rfl, rfl, rfl, rfl, rfl, rfl, rfl, rfl, rfl⟩

/-- C5: The framework error handlers for HTTP 404 and 500 each always
render the uniform error page with their fixed code (`HTTP-404`,
`HTTP-500`) and fixed text, independently of the triggering condition, and
never propagate further (dispatch always yields a rendered page for these
statuses); although the two source functions share the identifier
`page_not_found`, each status code was bound to its own function object at
decoration time, so dispatch is unambiguous even though the module-level
name ends up denoting only the 500 handler. -/
theorem error_handlers_fixed :
    dispatchError 404 = some (page_not_found 404) ∧
    dispatchError 500 = some (page_not_found' 500) ∧
    (page_not_found 404).renders =
      [{ template := "error.html"
         params := [("code", TValue.str "HTTP-404"),
                    ("description", TValue.str "Page could not be found. This is not where the shop is :(")] }] ∧
    (page_not_found 404).status = 404 ∧
    (page_not_found' 500).renders =
      [{ template := "error.html"
         params := [("code", TValue.str "HTTP-500"),
                    ("description", TValue.str "Something went wrong on the shop's server. Please report this event!")] }] ∧
    (page_not_found' 500).status = 500 ∧
    (∀ e, page_not_found e = page_not_found 404) ∧
    (∀ e, page_not_found' e = page_not_found' 500) ∧
    moduleBinding_page_not_found = page_not_found' ∧
    errorHandlers.map Prod.fst = [404, 500] :=
  ⟨rfl, rfl, rfl, rfl, rfl, rfl, fun _ => rfl, fun _ => rfl, rfl, rfl⟩

/-- C6: Every process trace starts with the construction of the registry
client immediately followed by its load step, before any request is
handled: the load step occurs exactly once, and every event after the
first two is a request-handling event, so no request is served against an
unloaded registry. -/
theorem startup_load_before_requests (reqs : List Request) :
    processTrace reqs =
      Event.construct :: Event.load_packages :: reqs.map Event.handle ∧
    (processTrace reqs).countP Event.isLoad = 1 ∧
    (reqs.map Event.handle).all Event.isHandle = true := by
  refine ⟨rfl, ?_, ?_⟩
  · have h0 : (reqs.map Event.handle).countP Event.isLoad = 0 := by
      rw [List.countP_eq_zero]
      intro a ha
      obtain ⟨r, _, rfl⟩ := List.mem_map.mp ha
      simp [Event.isLoad]
    simp [processTrace, startup, List.countP_append, h0, List.countP_cons,
      Event.isLoad]
  · rw [List.all_eq_true]
    intro a ha
    obtain ⟨r, _, rfl⟩ := List.mem_map.mp ha
    rfl

/-- C7: Each of the five route handlers performs zero or one registry
calls and exactly one render call: `/` and `/patches` perform zero
registry calls, `/home` and `/apps` perform exactly one `get_packages`
call, and `/app` performs exactly one `package_by_name` call; every
handler issues exactly one render. -/
theorem handlers_call_budget (reg : List Package) (arg : Option String) :
    welcome.registryCalls = [] ∧ welcome.renders.length = 1 ∧
    patches.registryCalls = [] ∧ patches.renders.length = 1 ∧
    (home reg).registryCalls = [RegistryCall.get_packages] ∧
    (home reg).renders.length = 1 ∧
    (apps reg).registryCalls = [RegistryCall.get_packages] ∧
    (apps reg).renders.length = 1 ∧
    (application reg arg).registryCalls = [RegistryCall.package_by_name arg] ∧
    (application reg arg).renders.length = 1 := by
  refine ⟨rfl, rfl, rfl, rfl, rfl, rfl, rfl, rfl, ?_, ?_⟩ <;>
    · unfold application
      cases package_by_name reg arg <;> rfl

/-- C8: No request handler ever mutates the registry: every registry call
a handler performs is one of the read methods, so folding a handler's
registry calls over any registry state — whatever the external load would
produce — leaves the state unchanged. -/
theorem handlers_read_only (reg : List Package) (req : Request) :
    (handle reg req).registryCalls.all RegistryCall.isRead = true ∧
    ∀ (loadResult : List Package) (st : RegistryState),
      (handle reg req).registryCalls.foldl (applyCall loadResult) st = st := by
  have hall : (handle reg req).registryCalls.all RegistryCall.isRead = true := by
    unfold handle
    split_ifs <;>
      first
      | rfl
      | · unfold application
          cases package_by_name reg (argsGet req.args "package") <;> rfl
  exact ⟨hall, fun loadResult st => foldl_reads_id loadResult _ hall st⟩

/-- C9: For a fixed registry state, dispatch is deterministic in the
request: two requests with the same path and the same `package` query
value produce identical results (template and parameters included); in
particular `/`, `/patches` and the two error handlers produce the same
output on every invocation regardless of the rest of the request. -/
theorem dispatch_deterministic (reg : List Package) (r1 r2 : Request)
    (hpath : r1.path = r2.path)
    (harg : argsGet r1.args "package" = argsGet r2.args "package") :
    handle reg r1 = handle reg r2 ∧
    (∀ args, handle reg { path := "/", args := args } = welcome) ∧
    (∀ args, handle reg { path := "/patches", args := args } = patches) ∧
    (∀ e1 e2, page_not_found e1 = page_not_found e2) ∧
    (∀ e1 e2, page_not_found' e1 = page_not_found' e2) := by
  refine ⟨?_, fun _ => rfl, fun _ => rfl, fun _ _ => rfl, fun _ _ => rfl⟩
  unfold handle
  rw [hpath, harg]

/-- Witness for C9: two `/app` requests sharing the `package` value but
differing in an unrelated query argument produce identical results. -/
theorem dispatch_deterministic_witness :
    Request.path { path := "/app", args := [("package", "hbb"), ("other", "1")] } =
      Request.path { path := "/app", args := [("package", "hbb")] } ∧
    argsGet [("package", "hbb"), ("other", "1")] "package" =
      argsGet [("package", "hbb")] "package" ∧
    handle [hbbPackage] { path := "/app", args := [("package", "hbb"), ("other", "1")] } =
      handle [hbbPackage] { path := "/app", args := [("package", "hbb")] } :=
  ⟨rfl, by decide,
   (dispatch_deterministic [hbbPackage]
     { path := "/app", args := [("package", "hbb"), ("other", "1")] }
     { path := "/app", args := [("package", "hbb")] }
     rfl (by decide)).1⟩

/-- C10: The `/home` and `/apps` handlers pass exactly the same data to
the renderer — the single parameter `packages` bound to the
`get_packages` result for the given registry state — and differ only in
the template identifier (`home.html` versus `list.html`). -/
theorem home_apps_same_data (reg : List Package) :
    (home reg).renders.map Rendered.params = (apps reg).renders.map Rendered.params ∧
    (home reg).renders.map Rendered.template = ["home.html"] ∧
    (apps reg).renders.map Rendered.template = ["list.html"] ∧
    (home reg).renders =
      [{ template := "home.html"
         params := [("packages", TValue.pkgList (get_packages reg))] }] ∧
    (apps reg).renders =
      [{ template := "list.html"
         params := [("packages", TValue.pkgList (get_packages reg))] }] ∧
    (home reg).registryCalls = (apps reg).registryCalls :=
  ⟨rfl, rfl, rfl, rfl, rfl, rfl⟩

end WebOSC
